import Mathlib

/-
Verification of the LithosGuard Pro geotechnical monitoring system.

Shallow embedding of:
  - src/physics_engine.py   (GeotechPhysics: calculate_fos, inverse_velocity,
                             calculate_ttf, calculate_shear_stress)
  - src/ml_engine.py        (LithosML.predict_risk fallback contract)
  - src/data_simulator.py   (generate_gsi_dataset and the three scenarios)
  - app.py                  (LIVE STREAM loop, MANUAL FORENSICS latch,
                             rolling telemetry buffer)

Conventions: Python floats are embedded as ℝ where transcendental functions
(tan, exp, sin) occur, and as ℚ where the logic is exact rational/branching
arithmetic (every IEEE double is a rational number, so quantifying over ℚ
covers every value the running program can produce).  Randomness is modelled
by explicit noise functions passed as parameters.  Exceptions are modelled
with Except.
-/

set_option maxRecDepth 4000

namespace LithosGuard

/-! ## Physics engine: src/physics_engine.py -/

/-- `GeotechPhysics.calculate_fos` (physics_engine.py lines 18-46).
`effective_normal_stress = max(normal_stress - pore_pressure, 0.1)`;
`tan_phi = np.tan(np.radians(friction_angle))` where `np.radians x = x * π / 180`;
`shear_strength = cohesion + effective_normal_stress * tan_phi`;
result `shear_strength / max(shear_stress, 0.1)`. -/
noncomputable def calculate_fos (cohesion friction_angle normal_stress
    pore_pressure shear_stress : ℝ) : ℝ :=
  let effective_normal_stress := max (normal_stress - pore_pressure) 0.1
  let tan_phi := Real.tan (friction_angle * Real.pi / 180)
  let shear_strength := cohesion + effective_normal_stress * tan_phi
  shear_strength / max shear_stress 0.1

/-- `GeotechPhysics.calculate_shear_stress` (physics_engine.py lines 103-117):
`base_stress + displacement * stress_increase_rate`.  The app calls it with the
default arguments `base_stress=80.0`, `stress_increase_rate=2.5`. -/
def calculate_shear_stress (displacement base_stress stress_increase_rate : ℚ) : ℚ :=
  base_stress + displacement * stress_increase_rate

/-- Python `l[-k:]`: the last `k` elements of a list (the whole list when it is
shorter than `k`). -/
def lastN {α : Type*} (k : ℕ) (l : List α) : List α :=
  l.drop (l.length - k)

/-- Last entry of `np.gradient(y)` with unit sample spacing and the default
`edge_order=1`: the one-sided difference `y[-1] - y[-2]`.  Only the last entry
of the gradient array is consumed by `inverse_velocity`.  The fallback value 0
is never reached from `inverse_velocity`, whose guard ensures at least five
samples. -/
def gradientLast (y : List ℚ) : ℚ :=
  match y.reverse with
  | a :: b :: _ => a - b
  | _ => 0

/-- Last entry of `np.gradient(y, t)` with coordinate array `t` and the default
`edge_order=1`: the one-sided difference `(y[-1] - y[-2]) / (t[-1] - t[-2])`. -/
def gradientLastAt (y t : List ℚ) : ℚ :=
  match y.reverse, t.reverse with
  | a :: b :: _, ta :: tb :: _ => (a - b) / (ta - tb)
  | _, _ => 0

/-- The velocity extracted by `inverse_velocity`: the last gradient value of the
last 10 displacement samples, with respect to the last 10 time samples when a
time series is given, and with respect to the sample index otherwise. -/
def velocity_of (displacement_series : List ℚ) (time_series : Option (List ℚ)) : ℚ :=
  match time_series with
  | some ts => gradientLastAt (lastN 10 displacement_series) (lastN 10 ts)
  | none => gradientLast (lastN 10 displacement_series)

/-- `GeotechPhysics.inverse_velocity` (physics_engine.py lines 48-82).
Fewer than 5 samples: sentinel 999.0.  Otherwise the last 10 samples are kept,
the last numerical-gradient value is the velocity; sentinel 99.0 when
`abs(velocity) < 0.0001`, else `1.0 / abs(velocity)`. -/
def inverse_velocity (displacement_series : List ℚ) (time_series : Option (List ℚ)) : ℚ :=
  if displacement_series.length < 5 then 999
  else
    let velocity := velocity_of displacement_series time_series
    if |velocity| < 1/10000 then 99
    else 1 / |velocity|

/-- `GeotechPhysics.calculate_ttf` (physics_engine.py lines 84-101):
`inverse_velocity(...) * scaling_factor`; the default scaling factor is 0.5. -/
def calculate_ttf (displacement_series : List ℚ) (time_series : Option (List ℚ))
    (scaling_factor : ℚ) : ℚ :=
  inverse_velocity displacement_series time_series * scaling_factor

/-! ## ML engine: src/ml_engine.py -/

/-- `LithosML` (ml_engine.py).  `model = none` models `model_loaded == False`
(missing artifact).  A loaded model is a function from the two feature values to
either an exception (`Except.error`, modelling any Python exception raised by
`model.predict` / `model.predict_proba`) or the pair
(prediction, probability row). -/
structure LithosML where
  model : Option (ℚ → ℚ → Except String (ℤ × List ℚ))

/-- `LithosML.predict_risk` (ml_engine.py lines 44-73).  Unloaded model:
`("Model Not Loaded", 0.0)`.  An exception inside the `try` block is caught and
`("Error", 0.0)` is returned.  Otherwise the label is `"CRITICAL FAILURE"` when
the prediction equals 1 and `"Stable"` otherwise, and the probability is
`probability[1]` when the row has more than one entry, else 0.5.  Totality of
this Lean function models the contract that `predict_risk` never raises. -/
def predict_risk (e : LithosML) (pressure displacement : ℚ) : String × ℚ :=
  match e.model with
  | none => ("Model Not Loaded", 0)
  | some invoke =>
    match invoke pressure displacement with
    | Except.error _ => ("Error", 0)
    | Except.ok (prediction, probability) =>
      ((if prediction = 1 then "CRITICAL FAILURE" else "Stable"),
        if h : 1 < probability.length then probability.get ⟨1, h⟩ else 1/2)

/-! ## Data simulator: src/data_simulator.py -/

/-- `np.linspace(a, b, n)` with the default `endpoint=True`: `n` evenly spaced
samples from `a` to `b`.  For `n = 1` numpy returns `[a]`; for `n = 0` the
empty array. -/
noncomputable def linspace (a b : ℝ) (n : ℕ) : List ℝ :=
  (List.range n).map
    (fun i : ℕ => if n ≤ 1 then a else a + (b - a) * (i : ℝ) / ((n : ℝ) - 1))

/-- The random draws consumed by one call of `generate_gsi_dataset`, indexed by
row position.  The source seeds no generator, so the draws are arbitrary reals
here (`rqd` stands for `np.random.randint(40, 50, rows)`, the others for the
`np.random.normal` vectors of the three scenarios). -/
structure SimNoise where
  rqd : ℕ → ℝ
  pressure : ℕ → ℝ
  acoustic : ℕ → ℝ
  fracture : ℕ → ℝ
  displacement : ℕ → ℝ

/-- The four scenario columns returned by the `_generate_*_scenario` helpers. -/
structure ScenarioData where
  pressure : List ℝ
  acoustic : List ℝ
  displacement : List ℝ
  intensity : List ℝ

/-- Monsoon rain intensity (data_simulator.py line 65):
`1 / (1 + np.exp(-0.5 * (t - 18)))`. -/
noncomputable def rain_event (t : ℝ) : ℝ :=
  1 / (1 + Real.exp (-(0.5) * (t - 18)))

/-- Monsoon pore-water pressure (data_simulator.py line 68):
`20 + rain_event * 65`. -/
noncomputable def monsoon_pressure (t : ℝ) : ℝ :=
  20 + rain_event t * 65

/-- `_generate_monsoon_scenario` (data_simulator.py lines 57-88).  The fracture
signal is injected exactly at the rows where the pressure exceeds 60 kPa; the
numpy draws feeding those rows are modelled by `ns.fracture` indexed by row. -/
noncomputable def monsoonData (ns : SimNoise) (time_hrs : List ℝ) : ScenarioData :=
  { pressure := time_hrs.map monsoon_pressure
    acoustic := time_hrs.enum.map (fun q =>
      0.2 * Real.sin (2 * Real.pi * 0.5 * q.2)
        + (if 60 < monsoon_pressure q.2 then 0.05 * ns.fracture q.1 else 0)
        + ns.acoustic q.1)
    displacement := time_hrs.map (fun t => 0.5 * Real.exp (0.3 * (monsoon_pressure t / 10)))
    intensity := time_hrs.map rain_event }

/-- Seismic Gaussian pulse centred at hour 12 (data_simulator.py line 101). -/
noncomputable def seismic_pulse (t : ℝ) : ℝ :=
  Real.exp (-((t - 12) ^ 2) / 2)

/-- `_generate_seismic_scenario` (data_simulator.py lines 91-112). -/
noncomputable def seismicData (ns : SimNoise) (time_hrs : List ℝ) : ScenarioData :=
  { pressure := time_hrs.enum.map (fun q => 30 + ns.pressure q.1)
    acoustic := time_hrs.enum.map (fun q => seismic_pulse q.2 * 2.0 + ns.acoustic q.1)
    displacement := time_hrs.map (fun t => 1.0 + seismic_pulse t * 8)
    intensity := time_hrs.map seismic_pulse }

/-- `_generate_stable_scenario` (data_simulator.py lines 115-128). -/
noncomputable def stableData (ns : SimNoise) (n : ℕ) (time_hrs : List ℝ) : ScenarioData :=
  { pressure := time_hrs.enum.map (fun q => 25 + ns.pressure q.1)
    acoustic := time_hrs.enum.map (fun q =>
      0.02 * Real.sin (2 * Real.pi * 0.5 * q.2) + ns.acoustic q.1)
    displacement := (linspace 0.5 1.5 n).enum.map (fun q => q.2 + ns.displacement q.1)
    intensity := time_hrs.map (fun _ => 0) }

/-- The scenario selector of `generate_gsi_dataset`: any string other than
`monsoon` or `seismic` falls through to the stable branch, so the three
constructors cover all behaviours. -/
inductive Scenario
  | monsoon
  | seismic
  | stable
deriving DecidableEq

/-- The GSI Bhukosh record columns assembled into the returned DataFrame
(data_simulator.py lines 44-52). -/
structure GsiDataset where
  time_hrs : List ℝ
  lithology : List String
  rqd : List ℝ
  pore_water_pressure : List ℝ
  raw_acoustic_emission : List ℝ
  displacement_mm : List ℝ
  scenario_intensity : List ℝ

/-- `generate_gsi_dataset(rows, scenario)` (data_simulator.py lines 10-54):
`time_hrs = np.linspace(0, 24, rows)`, constant lithology, random RQD, and the
scenario-specific pressure/acoustic/displacement/intensity columns. -/
noncomputable def generate_gsi_dataset (rows : ℕ) (scenario : Scenario)
    (ns : SimNoise) : GsiDataset :=
  let time_hrs := linspace 0 24 rows
  let data :=
    match scenario with
    | Scenario.monsoon => monsoonData ns time_hrs
    | Scenario.seismic => seismicData ns time_hrs
    | Scenario.stable => stableData ns rows time_hrs
  { time_hrs := time_hrs
    lithology := List.replicate rows "Quartzite (Fractured)"
    rqd := (List.range rows).map ns.rqd
    pore_water_pressure := data.pressure
    raw_acoustic_emission := data.acoustic
    displacement_mm := data.displacement
    scenario_intensity := data.intensity }

/-! ## Monitoring loops: app.py -/

/-- Criticality threshold (app.py line 520): `is_critical = fos < 1.05`. -/
def is_critical (fos : ℚ) : Bool :=
  decide (fos < 21/20)

/-- One replayed telemetry point together with the factor of safety the loop
body computes for it (app.py lines 511-512).  The FoS is carried as data
because its float value is a rational obtained upstream from `calculate_fos`;
the loop claims hold for every rational value. -/
structure Tick where
  time : ℚ
  pressure : ℚ
  displacement : ℚ
  fos : ℚ
deriving DecidableEq

/-- `st.session_state.telemetry_buffer` (app.py line 287): four keyed series. -/
structure TelemetryBuffer where
  time : List ℚ
  pressure : List ℚ
  displacement : List ℚ
  fos : List ℚ
deriving DecidableEq

/-- Initial buffer: all four keys empty. -/
def emptyBuffer : TelemetryBuffer := ⟨[], [], [], []⟩

/-- `max_buffer = 200` (app.py line 503). -/
def max_buffer : ℕ := 200

/-- The per-tick buffer update (app.py lines 498-518): append time, pressure
and displacement; when the time key exceeds 200 entries, trim every key to its
last 200 entries; then append the freshly computed FoS and trim that key alone
when it exceeds 200 entries. -/
def bufferAppendTick (p : Tick) (b : TelemetryBuffer) : TelemetryBuffer :=
  let b1 : TelemetryBuffer :=
    { b with
      time := b.time ++ [p.time]
      pressure := b.pressure ++ [p.pressure]
      displacement := b.displacement ++ [p.displacement] }
  let b2 :=
    if max_buffer < b1.time.length then
      ⟨lastN max_buffer b1.time, lastN max_buffer b1.pressure,
        lastN max_buffer b1.displacement, lastN max_buffer b1.fos⟩
    else b1
  let b3 := { b2 with fos := b2.fos ++ [p.fos] }
  if max_buffer < b3.fos.length then { b3 with fos := lastN max_buffer b3.fos }
  else b3

/-- The five outbound command records extended onto the command log when the
streaming alarm fires (app.py lines 527-533).  The wall-clock timestamp prefix
is omitted; the record count and order are preserved. -/
def stream_command_batch : List String :=
  ["MQTT >> mine/pit1/control/alarm cmd SIREN_ON",
    "API >> POST /v1/trigger/alarm sector 4 severity CRITICAL",
    "SMS >> Broadcast to 42 workers: EVACUATE SECTOR 4",
    "RELAY >> Truck #091 engine cutoff activated",
    "RELAY >> Emergency lighting Zone 4: ON"]

/-- The four outbound command records of the forensic-mode alarm
(app.py lines 718-723). -/
def forensic_command_batch : List String :=
  ["MQTT >> mine/pit1/control/alarm cmd SIREN_ON",
    "API >> POST /v1/trigger/alarm",
    "SMS >> 42 workers notified",
    "RELAY >> Truck #091 cutoff"]

/-- The session state touched by the LIVE STREAM loop body: the rolling buffer,
the two alarm flags and the command log (app.py lines 280-287). -/
structure StreamState where
  buffer : TelemetryBuffer
  alarm_triggered : Bool
  alarm_already_logged : Bool
  command_log : List String
deriving DecidableEq

/-- Session-start state (app.py lines 280-287): flags false, log and buffer
empty. -/
def initStreamState : StreamState := ⟨emptyBuffer, false, false, []⟩

/-- One iteration of the LIVE STREAM loop body (app.py lines 494-534), for one
tick: buffer maintenance, then the one-shot alarm latch guarded by
`alarm_already_logged`. -/
def streamTick (p : Tick) (s : StreamState) : StreamState :=
  let buffer := bufferAppendTick p s.buffer
  if is_critical p.fos && !s.alarm_already_logged then
    { buffer := buffer
      alarm_triggered := true
      alarm_already_logged := true
      command_log := s.command_log ++ stream_command_batch }
  else { s with buffer := buffer }

/-- The dataset replayed by the stream has `rows=1000` (app.py line 463). -/
def series_rows : ℕ := 1000

/-- The LIVE STREAM loop (app.py lines 494-693): iterate the index/tick pairs
in order; after the body of a tick with `is_critical` true and index `i > 800`,
break out of the loop. -/
def streamRun : List (ℕ × Tick) → StreamState → StreamState
  | [], s => s
  | (i, p) :: rest, s =>
    let s1 := streamTick p s
    if is_critical p.fos && decide (800 < i) then s1 else streamRun rest s1

/-- The index/tick pairs whose loop body actually executes in `streamRun`
(everything before and including the tick at which the early stop breaks). -/
def streamProcessed : List (ℕ × Tick) → List (ℕ × Tick)
  | [] => []
  | (i, p) :: rest =>
    (i, p) :: (if is_critical p.fos && decide (800 < i) then [] else streamProcessed rest)

/-- The session state touched by one MANUAL FORENSICS evaluation
(app.py lines 712-726). -/
structure ForensicState where
  alarm_triggered : Bool
  alarm_already_logged : Bool
  command_log : List String
deriving DecidableEq

/-- Session-start forensic state. -/
def initForensicState : ForensicState := ⟨false, false, []⟩

/-- One slider-driven forensic evaluation (app.py lines 712-726): fire the
alarm when critical and not yet logged; auto-clear both flags when not critical
and already logged; otherwise leave the state unchanged. -/
def forensicStep (fos : ℚ) (s : ForensicState) : ForensicState :=
  if is_critical fos && !s.alarm_already_logged then
    ⟨true, true, s.command_log ++ forensic_command_batch⟩
  else if !(is_critical fos) && s.alarm_already_logged then
    ⟨false, false, s.command_log⟩
  else s

/-- A sequence of forensic evaluations at successive slider positions. -/
def forensicRun (evals : List ℚ) (s : ForensicState) : ForensicState :=
  evals.foldl (fun s f => forensicStep f s) s

/-- The buffer evolution alone, over a sequence of per-tick appends. -/
def bufferRun (ps : List Tick) (b : TelemetryBuffer) : TelemetryBuffer :=
  ps.foldl (fun b p => bufferAppendTick p b) b

/-- A concrete all-zero noise assignment, used to instantiate the generator on
concrete inputs. -/
def zeroNoise : SimNoise :=
  ⟨fun _ => 0, fun _ => 0, fun _ => 0, fun _ => 0, fun _ => 0⟩

/-! ## Theorems -/

/-- Interval-arithmetic bounds for tan 35°, obtained from the degree-4 Taylor
bounds on sin and cos and the six-digit bounds on π.  The true value is
about 0.70021. -/
lemma tan_deg35_bounds :
    0.68 < Real.tan (35 * Real.pi / 180) ∧ Real.tan (35 * Real.pi / 180) < 0.72 := by
  have hπ1 : 3.141592 < Real.pi := Real.pi_gt_d6
  have hπ2 : Real.pi < 3.141593 := Real.pi_lt_d6
  set x : ℝ := 35 * Real.pi / 180 with hxdef
  have hx1 : 0.6108651 < x := by rw [hxdef]; nlinarith
  have hx2 : x < 0.6108654 := by rw [hxdef]; nlinarith
  have hx0 : 0 < x := by linarith
  have hxabs : |x| ≤ 1 := by rw [abs_of_pos hx0]; linarith
  have hs := Real.sin_bound hxabs
  have hc := Real.cos_bound hxabs
  rw [abs_of_pos hx0] at hs hc
  have hs' := abs_le.mp hs
  have hc' := abs_le.mp hc
  have hx2p : x^2 < 0.6108654^2 :=
    pow_lt_pow_left₀ hx2 (le_of_lt hx0) (by norm_num)
  have hx2l : 0.6108651^2 < x^2 :=
    pow_lt_pow_left₀ hx1 (by norm_num) (by norm_num)
  have hx3p : x^3 < 0.6108654^3 :=
    pow_lt_pow_left₀ hx2 (le_of_lt hx0) (by norm_num)
  have hx3l : 0.6108651^3 < x^3 :=
    pow_lt_pow_left₀ hx1 (by norm_num) (by norm_num)
  have hx4p : x^4 < 0.6108654^4 :=
    pow_lt_pow_left₀ hx2 (le_of_lt hx0) (by norm_num)
  have hsin_lo : (0.5656 : ℝ) < Real.sin x := by linarith [hs'.1]
  have hsin_hi : Real.sin x < (0.58013 : ℝ) := by linarith [hs'.2]
  have hcos_lo : (0.80616 : ℝ) < Real.cos x := by linarith [hc'.1]
  have hcos_hi : Real.cos x < (0.82068 : ℝ) := by linarith [hc'.2]
  have hcos_pos : 0 < Real.cos x := by linarith
  rw [Real.tan_eq_sin_div_cos]
  constructor
  · rw [lt_div_iff₀ hcos_pos]
    linarith
  · rw [div_lt_iff₀ hcos_pos]
    linarith

/-- C1: `calculate_fos` returns
`(cohesion + max(normal_stress - pore_pressure, 0.1) * tan(radians(friction_angle))) / max(shear_stress, 0.1)`
for every input; `calculate_fos(50, 35, 120, 0, 100)` is approximately 1.34
(within 0.05); and when the pore pressure is at least the normal stress, the
effective normal stress is clamped to the 0.1 floor. -/
theorem calculate_fos_spec :
    (∀ c φ σ u τ : ℝ, calculate_fos c φ σ u τ
      = (c + max (σ - u) 0.1 * Real.tan (φ * Real.pi / 180)) / max τ 0.1)
    ∧ |calculate_fos 50 35 120 0 100 - 1.34| < 1/20
    ∧ (∀ c φ σ u τ : ℝ, σ ≤ u → calculate_fos c φ σ u τ
      = (c + 0.1 * Real.tan (φ * Real.pi / 180)) / max τ 0.1) := by
  refine ⟨fun c φ σ u τ => rfl, ?_, ?_⟩
  · have e : calculate_fos 50 35 120 0 100
        = (50 + 120 * Real.tan (35 * Real.pi / 180)) / 100 := by
      show (50 + max ((120:ℝ) - 0) 0.1 * Real.tan (35 * Real.pi / 180)) / max 100 0.1
          = (50 + 120 * Real.tan (35 * Real.pi / 180)) / 100
      rw [show ((120:ℝ) - 0) = 120 by norm_num,
        max_eq_left (by norm_num : (0.1:ℝ) ≤ 120),
        max_eq_left (by norm_num : (0.1:ℝ) ≤ 100)]
    rw [e, abs_lt]
    obtain ⟨h1, h2⟩ := tan_deg35_bounds
    constructor <;> linarith
  · intro c φ σ u τ h
    show (c + max (σ - u) 0.1 * Real.tan (φ * Real.pi / 180)) / max τ 0.1
        = (c + 0.1 * Real.tan (φ * Real.pi / 180)) / max τ 0.1
    rw [max_eq_right (by linarith : σ - u ≤ 0.1)]

/-- Witness for C1: the clamp conjunct applied at pore pressure 130 against
normal stress 120, where effective normal stress floors at 0.1. -/
theorem calculate_fos_spec_witness :
    calculate_fos 50 35 120 130 100
      = (50 + 0.1 * Real.tan (35 * Real.pi / 180)) / max 100 0.1 :=
  calculate_fos_spec.2.2 50 35 120 130 100 (by norm_num)

/-- `np.linspace` returns exactly the requested number of samples. -/
lemma linspace_length (a b : ℝ) (n : ℕ) : (linspace a b n).length = n := by
  simp [linspace]

/-- A nonempty linspace starts at its left endpoint. -/
lemma linspace_head (a b : ℝ) (n : ℕ) (h : 0 < n) :
    (linspace a b n).head? = some a := by
  obtain ⟨m, rfl⟩ : ∃ m, n = m + 1 := ⟨n - 1, by omega⟩
  rw [linspace, List.range_succ_eq_map, List.map_cons, List.head?_cons]
  congr 1
  split
  · rfl
  · push_cast
    ring

/-- A linspace with at least two samples ends at its right endpoint. -/
lemma linspace_getLast (a b : ℝ) (n : ℕ) (h : 2 ≤ n) :
    (linspace a b n).getLast? = some b := by
  obtain ⟨m, rfl⟩ : ∃ m, n = m + 1 := ⟨n - 1, by omega⟩
  rw [linspace, List.range_succ, List.map_append, List.map_singleton,
    List.getLast?_concat]
  congr 1
  rw [if_neg (by omega)]
  have hm : (1:ℕ) ≤ m := by omega
  have hm' : (m:ℝ) ≠ 0 := by
    exact_mod_cast Nat.one_le_iff_ne_zero.mp hm
  push_cast
  field_simp

/-- A linspace with a strictly smaller left endpoint is strictly increasing. -/
lemma linspace_pairwise (a b : ℝ) (n : ℕ) (hab : a < b) :
    (linspace a b n).Pairwise (· < ·) := by
  by_cases h1 : n ≤ 1
  · interval_cases n
    · simp [linspace]
    · simp [linspace]
  · rw [linspace]
    refine List.Pairwise.map _ ?_ (List.pairwise_lt_range n)
    intro i j hij
    rw [if_neg h1, if_neg h1]
    have hn : (0:ℝ) < (n:ℝ) - 1 := by
      have : (2:ℕ) ≤ n := by omega
      have : (2:ℝ) ≤ (n:ℝ) := by exact_mod_cast this
      linarith
    have hij' : (i:ℝ) < (j:ℝ) := by exact_mod_cast hij
    have hmul : (b - a) * i < (b - a) * j :=
      mul_lt_mul_of_pos_left hij' (by linarith)
    have hdiv := (div_lt_div_iff_of_pos_right hn).mpr hmul
    linarith

/-- C2: `inverse_velocity` follows the reference definition: fewer than 5
samples returns the sentinel 999.0 (not an error); otherwise the velocity is
the last numerical-gradient value of the last 10 samples (with respect to the
time series when given, the sample index otherwise), the sentinel 99.0 is
returned when its magnitude is below 1e-4, and `1/|v|` otherwise; in particular
`inverse_velocity([1,...,10])` with unit steps returns 1.0. -/
theorem inverse_velocity_spec :
    (∀ (d : List ℚ) (t : Option (List ℚ)), d.length < 5 →
      inverse_velocity d t = 999)
    ∧ (∀ (d : List ℚ) (t : Option (List ℚ)), 5 ≤ d.length →
      |velocity_of d t| < 1/10000 → inverse_velocity d t = 99)
    ∧ (∀ (d : List ℚ) (t : Option (List ℚ)), 5 ≤ d.length →
      1/10000 ≤ |velocity_of d t| → inverse_velocity d t = 1 / |velocity_of d t|)
    ∧ inverse_velocity [1, 2, 3, 4, 5, 6, 7, 8, 9, 10] none = 1 := by
  refine ⟨?_, ?_, ?_, ?_⟩
  · intro d t h
    simp [inverse_velocity, h]
  · intro d t h hv
    rw [inverse_velocity, if_neg (not_lt.mpr h), if_pos hv]
  · intro d t h hv
    rw [inverse_velocity, if_neg (not_lt.mpr h), if_neg (not_lt.mpr hv)]
  · norm_num [inverse_velocity, velocity_of, lastN, gradientLast]

/-- Witness for C2: every branch of `inverse_velocity_spec` instantiated on a
concrete series. -/
theorem inverse_velocity_spec_witness :
    inverse_velocity [1, 1, 1, 1] none = 999
    ∧ inverse_velocity [2, 2, 2, 2, 2] none = 99
    ∧ inverse_velocity [0, 2, 4, 6, 8] none
        = 1 / |velocity_of [0, 2, 4, 6, 8] none| :=
  ⟨inverse_velocity_spec.1 [1, 1, 1, 1] none (by decide),
    inverse_velocity_spec.2.1 [2, 2, 2, 2, 2] none (by decide)
      (by norm_num [velocity_of, lastN, gradientLast]),
    inverse_velocity_spec.2.2.1 [0, 2, 4, 6, 8] none (by decide)
      (by norm_num [velocity_of, lastN, gradientLast])⟩

/-- C10: for every displacement series (and, when given, a time series of
matching length with pairwise distinct values), `inverse_velocity` returns a
value in (0, 10000]: one of the sentinels 999.0 or 99.0, or `1/|v|` with
`|v| ≥ 1e-4`; consequently `calculate_ttf` with the default scaling factor 0.5
returns a value in (0, 5000]. -/
theorem inverse_velocity_bounds (d : List ℚ) (t : Option (List ℚ))
    (_ht : ∀ ts, t = some ts → ts.length = d.length ∧ ts.Pairwise (· ≠ ·)) :
    0 < inverse_velocity d t ∧ inverse_velocity d t ≤ 10000
    ∧ 0 < calculate_ttf d t (1/2) ∧ calculate_ttf d t (1/2) ≤ 5000 := by
  have key : 0 < inverse_velocity d t ∧ inverse_velocity d t ≤ 10000 := by
    rw [inverse_velocity]
    rcases lt_or_le d.length 5 with h | h
    · rw [if_pos h]; norm_num
    · rw [if_neg (not_lt.mpr h)]
      rcases lt_or_le |velocity_of d t| (1/10000) with hv | hv
      · rw [if_pos hv]; norm_num
      · rw [if_neg (not_lt.mpr hv)]
        have hpos : 0 < |velocity_of d t| := lt_of_lt_of_le (by norm_num) hv
        constructor
        · exact div_pos one_pos hpos
        · rw [div_le_iff₀ hpos]
          nlinarith
  refine ⟨key.1, key.2, ?_, ?_⟩
  · rw [calculate_ttf]
    nlinarith [key.1]
  · rw [calculate_ttf]
    nlinarith [key.2]

/-- Witness for C10: the bounds instantiated on a concrete series with a
concrete distinct-valued time series. -/
theorem inverse_velocity_bounds_witness :
    0 < inverse_velocity [1, 2, 3, 4, 5, 6] (some [0, 1, 2, 3, 4, 5])
    ∧ inverse_velocity [1, 2, 3, 4, 5, 6] (some [0, 1, 2, 3, 4, 5]) ≤ 10000
    ∧ 0 < calculate_ttf [1, 2, 3, 4, 5, 6] (some [0, 1, 2, 3, 4, 5]) (1/2)
    ∧ calculate_ttf [1, 2, 3, 4, 5, 6] (some [0, 1, 2, 3, 4, 5]) (1/2) ≤ 5000 :=
  inverse_velocity_bounds [1, 2, 3, 4, 5, 6] (some [0, 1, 2, 3, 4, 5])
    (by intro ts hts; cases hts; exact ⟨by decide, by decide⟩)

/-- C9: `predict_risk` never raises: with no loaded model it returns exactly
`("Model Not Loaded", 0.0)` for every input, and when the loaded model raises,
the exception is caught locally and `("Error", 0.0)` is returned.  Totality of
the embedded function models exception-freedom. -/
theorem predict_risk_fallback (e : LithosML) (pressure displacement : ℚ) :
    (e.model = none → predict_risk e pressure displacement = ("Model Not Loaded", 0))
    ∧ (∀ invoke msg, e.model = some invoke →
      invoke pressure displacement = Except.error msg →
      predict_risk e pressure displacement = ("Error", 0)) := by
  constructor
  · intro h
    simp [predict_risk, h]
  · intro invoke msg hm hinv
    simp [predict_risk, hm, hinv]

/-- Witness for C9: an unloaded engine and an engine whose model raises on
invocation, both evaluated on a concrete input. -/
theorem predict_risk_fallback_witness :
    predict_risk ⟨none⟩ 55 3 = ("Model Not Loaded", 0)
    ∧ predict_risk ⟨some (fun _ _ => Except.error "bad input")⟩ 55 3 = ("Error", 0) :=
  ⟨(predict_risk_fallback ⟨none⟩ 55 3).1 rfl,
    (predict_risk_fallback ⟨some (fun _ _ => Except.error "bad input")⟩ 55 3).2
      (fun _ _ => Except.error "bad input") "bad input" rfl rfl⟩

/-- C4: in forensic mode, whenever `is_critical` evaluates false after the
alarm was latched, both flags reset to false and the command log is left
unchanged; and over a critical / non-critical / critical sequence of
evaluations, exactly two outbound-command batches are recorded. -/
theorem forensic_alarm_autoclear :
    (∀ (fos : ℚ) (s : ForensicState), is_critical fos = false →
      s.alarm_already_logged = true →
      (forensicStep fos s).alarm_triggered = false
      ∧ (forensicStep fos s).alarm_already_logged = false
      ∧ (forensicStep fos s).command_log = s.command_log)
    ∧ (∀ f1 f2 f3 : ℚ, is_critical f1 = true → is_critical f2 = false →
      is_critical f3 = true →
      (forensicRun [f1, f2, f3] initForensicState).command_log
        = forensic_command_batch ++ forensic_command_batch) := by
  constructor
  · intro fos s h1 h2
    simp [forensicStep, h1, h2]
  · intro f1 f2 f3 h1 h2 h3
    simp [forensicRun, forensicStep, initForensicState, h1, h2, h3]

/-- Witness for C4: the auto-clear step and the true/false/true re-fire
sequence on concrete FoS values (1 is critical, 2 is not). -/
theorem forensic_alarm_autoclear_witness :
    ((forensicStep 2 ⟨true, true, forensic_command_batch⟩).alarm_triggered = false
      ∧ (forensicStep 2 ⟨true, true, forensic_command_batch⟩).alarm_already_logged = false
      ∧ (forensicStep 2 ⟨true, true, forensic_command_batch⟩).command_log
          = forensic_command_batch)
    ∧ (forensicRun [1, 2, 1] initForensicState).command_log
        = forensic_command_batch ++ forensic_command_batch :=
  ⟨forensic_alarm_autoclear.1 2 ⟨true, true, forensic_command_batch⟩
      (by norm_num [is_critical]) rfl,
    forensic_alarm_autoclear.2 1 2 1 (by norm_num [is_critical])
      (by norm_num [is_critical]) (by norm_num [is_critical])⟩

/-- C6 (amended: at least two points): for every count `N ≥ 2` and each of the
three scenarios, `generate(scenario, N)` returns exactly `N` points in every
column, with `time_hours` strictly increasing from 0 to 24.  For `N = 1` the
original claim fails: see the counterexample `generate_dataset_cex`. -/
theorem generate_dataset_shape (rows : ℕ) (sc : Scenario) (ns : SimNoise)
    (h2 : 2 ≤ rows) :
    ((generate_gsi_dataset rows sc ns).time_hrs.length = rows
      ∧ (generate_gsi_dataset rows sc ns).lithology.length = rows
      ∧ (generate_gsi_dataset rows sc ns).rqd.length = rows
      ∧ (generate_gsi_dataset rows sc ns).pore_water_pressure.length = rows
      ∧ (generate_gsi_dataset rows sc ns).raw_acoustic_emission.length = rows
      ∧ (generate_gsi_dataset rows sc ns).displacement_mm.length = rows
      ∧ (generate_gsi_dataset rows sc ns).scenario_intensity.length = rows)
    ∧ (generate_gsi_dataset rows sc ns).time_hrs.Pairwise (· < ·)
    ∧ (generate_gsi_dataset rows sc ns).time_hrs.head? = some 0
    ∧ (generate_gsi_dataset rows sc ns).time_hrs.getLast? = some 24 := by
  refine ⟨?_, ?_, ?_, ?_⟩
  · cases sc <;>
      simp [generate_gsi_dataset, monsoonData, seismicData, stableData,
        linspace_length]
  · cases sc <;>
      exact linspace_pairwise 0 24 rows (by norm_num)
  · cases sc <;>
      exact linspace_head 0 24 rows (by omega)
  · cases sc <;>
      exact linspace_getLast 0 24 rows h2

/-- Witness for C6: the amended shape property at three monsoon points. -/
theorem generate_dataset_shape_witness :
    ((generate_gsi_dataset 3 Scenario.monsoon zeroNoise).time_hrs.length = 3
      ∧ (generate_gsi_dataset 3 Scenario.monsoon zeroNoise).lithology.length = 3
      ∧ (generate_gsi_dataset 3 Scenario.monsoon zeroNoise).rqd.length = 3
      ∧ (generate_gsi_dataset 3 Scenario.monsoon zeroNoise).pore_water_pressure.length = 3
      ∧ (generate_gsi_dataset 3 Scenario.monsoon zeroNoise).raw_acoustic_emission.length = 3
      ∧ (generate_gsi_dataset 3 Scenario.monsoon zeroNoise).displacement_mm.length = 3
      ∧ (generate_gsi_dataset 3 Scenario.monsoon zeroNoise).scenario_intensity.length = 3)
    ∧ (generate_gsi_dataset 3 Scenario.monsoon zeroNoise).time_hrs.Pairwise (· < ·)
    ∧ (generate_gsi_dataset 3 Scenario.monsoon zeroNoise).time_hrs.head? = some 0
    ∧ (generate_gsi_dataset 3 Scenario.monsoon zeroNoise).time_hrs.getLast? = some 24 :=
  generate_dataset_shape 3 Scenario.monsoon zeroNoise (by norm_num)

/-- Counterexample for C6 as stated for every count: at `N = 1` the generator
returns the single time value 0 (numpy linspace with one sample returns the
left endpoint), so the last time value is not 24 and the series does not span
[0, 24]. -/
theorem generate_dataset_cex :
    (generate_gsi_dataset 1 Scenario.monsoon zeroNoise).time_hrs = [0]
    ∧ (generate_gsi_dataset 1 Scenario.monsoon zeroNoise).time_hrs.getLast?
        ≠ some 24 := by
  have h : (generate_gsi_dataset 1 Scenario.monsoon zeroNoise).time_hrs = [0] := by
    simp [generate_gsi_dataset, linspace]
  refine ⟨h, ?_⟩
  rw [h]
  simp

/-- Bounds for exp 3 (true value about 20.0855), from the nine-digit bounds on
exp 1. -/
lemma exp_three_bounds : 20.085 < Real.exp 3 ∧ Real.exp 3 < 20.086 := by
  have h3 : Real.exp 3 = Real.exp 1 ^ 3 := by
    rw [← Real.exp_nat_mul]
    norm_num
  constructor
  · rw [h3]
    calc (20.085:ℝ) < 2.7182818283 ^ 3 := by norm_num
    _ < Real.exp 1 ^ 3 :=
      pow_lt_pow_left₀ Real.exp_one_gt_d9 (by norm_num) (by norm_num)
  · rw [h3]
    calc Real.exp 1 ^ 3 < 2.7182818286 ^ 3 :=
      pow_lt_pow_left₀ Real.exp_one_lt_d9 (le_of_lt (Real.exp_pos 1)) (by norm_num)
    _ < 20.086 := by norm_num

/-- exp 9 (about 8103.08) comfortably exceeds 6499. -/
lemma exp_nine_gt : (6499:ℝ) < Real.exp 9 := by
  have h9 : Real.exp 9 = Real.exp 1 ^ 9 := by
    rw [← Real.exp_nat_mul]
    norm_num
  rw [h9]
  calc (6499:ℝ) < 2.7182818283 ^ 9 := by norm_num
  _ < Real.exp 1 ^ 9 :=
    pow_lt_pow_left₀ Real.exp_one_gt_d9 (by norm_num) (by norm_num)

/-- The monsoon pressure at hour 0 is just above the 20 kPa baseline. -/
lemma monsoon_pressure_zero_bounds :
    20 < monsoon_pressure 0 ∧ monsoon_pressure 0 < 20.01 := by
  have harg : -(0.5:ℝ) * ((0:ℝ) - 18) = 9 := by norm_num
  rw [monsoon_pressure, rain_event, harg]
  have hE := exp_nine_gt
  have hpos : (0:ℝ) < 1 + Real.exp 9 := by positivity
  constructor
  · have : 0 < 1 / (1 + Real.exp 9) := by positivity
    linarith
  · have hlt : 1 / (1 + Real.exp 9) < 1 / 6500 := by
      rw [div_lt_div_iff₀ hpos (by norm_num)]
      linarith
    linarith

/-- The monsoon pressure at hour 24 lies strictly between 81.9 and 82 kPa
(true value about 81.917): the logistic curve is still about 3 kPa short of its
85 kPa asymptote at the end of the 24-hour window. -/
lemma monsoon_pressure_24_bounds :
    81.9 < monsoon_pressure 24 ∧ monsoon_pressure 24 < 82 := by
  have harg : -(0.5:ℝ) * ((24:ℝ) - 18) = -3 := by norm_num
  rw [monsoon_pressure, rain_event, harg]
  obtain ⟨hE1, hE2⟩ := exp_three_bounds
  have hEpos : (0:ℝ) < Real.exp 3 := Real.exp_pos 3
  rw [Real.exp_neg]
  have hy1 : (1:ℝ)/20.086 < (Real.exp 3)⁻¹ := by
    rw [div_lt_iff₀ (by norm_num), inv_mul_eq_div, lt_div_iff₀ hEpos]
    linarith
  have hy2 : (Real.exp 3)⁻¹ < (1:ℝ)/20.085 := by
    rw [lt_div_iff₀ (by norm_num), inv_mul_eq_div, div_lt_iff₀ hEpos]
    linarith
  set y := (Real.exp 3)⁻¹ with hy
  have hypos : 0 < y := by positivity
  have hpos : (0:ℝ) < 1 + y := by linarith
  constructor
  · have hlow : (61.9:ℝ) < 65 / (1 + y) := by
      rw [lt_div_iff₀ hpos]
      nlinarith
    have h65 : 1 / (1 + y) * 65 = 65 / (1 + y) := by ring
    linarith [h65 ▸ hlow]
  · have hhigh : (65:ℝ) / (1 + y) < 62 := by
      rw [div_lt_iff₀ hpos]
      nlinarith
    have h65 : 1 / (1 + y) * 65 = 65 / (1 + y) := by ring
    linarith [h65 ▸ hhigh]

/-- C7 (amended: the hour-24 value is approximately 82 kPa, not 85): the
monsoon pore pressure equals the logistic curve
`20 + 65 * (1 / (1 + exp(-0.5 * (t - 18))))` at every generated time, a rise
centred at hour 18 with baseline 20 kPa and asymptotic peak +65 kPa; the
pressure at hour 0 lies within 0.01 of 20 kPa, and the pressure at hour 24
lies strictly between 81.9 and 82 kPa.  The original figure of approximately
85 kPa at hour 24 is refuted by `monsoon_pressure_cex`. -/
theorem monsoon_pressure_profile :
    (∀ (rows : ℕ) (ns : SimNoise),
      (generate_gsi_dataset rows Scenario.monsoon ns).pore_water_pressure
        = (generate_gsi_dataset rows Scenario.monsoon ns).time_hrs.map
            (fun t => 20 + 65 * (1 / (1 + Real.exp (-(0.5) * (t - 18))))))
    ∧ (20 < monsoon_pressure 0 ∧ monsoon_pressure 0 < 20.01)
    ∧ (81.9 < monsoon_pressure 24 ∧ monsoon_pressure 24 < 82) := by
  refine ⟨?_, monsoon_pressure_zero_bounds, monsoon_pressure_24_bounds⟩
  intro rows ns
  have hf : monsoon_pressure
      = fun t => 20 + 65 * (1 / (1 + Real.exp (-(0.5) * (t - 18)))) := by
    funext t
    rw [monsoon_pressure, rain_event]
    ring
  simp only [generate_gsi_dataset, monsoonData]
  rw [hf]

/-- Counterexample for C7 as stated: the monsoon pressure at hour 24 differs
from 85 kPa by more than 3 kPa, so it is not approximately 85 kPa at any
tolerance up to 3. -/
theorem monsoon_pressure_cex : 3 < |monsoon_pressure 24 - 85| := by
  have h := monsoon_pressure_24_bounds
  rw [abs_of_neg (by linarith : monsoon_pressure 24 - 85 < 0)]
  linarith

/-- The loop body leaves the log and the latch untouched once the alarm has
been logged. -/
lemma streamTick_of_logged (p : Tick) (s : StreamState)
    (h : s.alarm_already_logged = true) :
    (streamTick p s).command_log = s.command_log
    ∧ (streamTick p s).alarm_already_logged = true := by
  simp [streamTick, h]

/-- The loop body fires the alarm at an unlogged critical tick: one batch is
appended and the latch is set. -/
lemma streamTick_of_crit (p : Tick) (s : StreamState)
    (hc : is_critical p.fos = true) (h : s.alarm_already_logged = false) :
    (streamTick p s).command_log = s.command_log ++ stream_command_batch
    ∧ (streamTick p s).alarm_already_logged = true := by
  simp [streamTick, hc, h]

/-- The loop body leaves the log and latch untouched at a non-critical tick. -/
lemma streamTick_of_not_crit (p : Tick) (s : StreamState)
    (hc : is_critical p.fos = false) :
    (streamTick p s).command_log = s.command_log
    ∧ (streamTick p s).alarm_already_logged = s.alarm_already_logged := by
  simp [streamTick, hc]

/-- Once the streaming latch is set, the rest of the replay never extends the
command log. -/
lemma streamRun_of_logged (ps : List (ℕ × Tick)) (s : StreamState)
    (h : s.alarm_already_logged = true) :
    (streamRun ps s).command_log = s.command_log
    ∧ (streamRun ps s).alarm_already_logged = true := by
  induction ps generalizing s with
  | nil => exact ⟨rfl, h⟩
  | cons q rest ih =>
    obtain ⟨i, p⟩ := q
    rw [streamRun]
    obtain ⟨hl, ha⟩ := streamTick_of_logged p s h
    split
    · exact ⟨hl, ha⟩
    · obtain ⟨hl2, ha2⟩ := ih (streamTick p s) ha
      exact ⟨hl2.trans hl, ha2⟩

/-- From an unlatched state, the replay appends exactly one batch when some
tick reached by the loop is critical, and nothing otherwise. -/
lemma streamRun_of_not_logged (ps : List (ℕ × Tick)) (s : StreamState)
    (h : s.alarm_already_logged = false) :
    (streamRun ps s).command_log
      = s.command_log
        ++ (if ps.any (fun q => is_critical q.2.fos) then stream_command_batch else []) := by
  induction ps generalizing s with
  | nil => simp [streamRun]
  | cons q rest ih =>
    obtain ⟨i, p⟩ := q
    rw [streamRun]
    by_cases hc : is_critical p.fos
    · obtain ⟨hl, ha⟩ := streamTick_of_crit p s hc h
      simp only [List.any_cons, hc, Bool.true_or, if_pos]
      split
      · exact hl
      · obtain ⟨hl2, _⟩ := streamRun_of_logged rest (streamTick p s) ha
        exact hl2.trans hl
    · have hc' : is_critical p.fos = false := by simpa using hc
      obtain ⟨hl, ha⟩ := streamTick_of_not_crit p s hc'
      rw [if_neg (by simp [hc'])]
      rw [ih (streamTick p s) (ha.trans h), hl, List.any_cons, hc', Bool.false_or]

/-- C3: in streaming mode, starting from the session-start state, the replay
appends the outbound command batch to the command log exactly once for the
whole session: the final log is one batch when any tick the loop reaches is
critical (FoS < 1.05), and empty otherwise; subsequent critical ticks never
append a further batch. -/
theorem stream_alarm_once (ps : List (ℕ × Tick)) :
    (streamRun ps initStreamState).command_log
      = if ps.any (fun q => is_critical q.2.fos) then stream_command_batch else [] := by
  simpa [initStreamState] using streamRun_of_not_logged ps initStreamState rfl

/-- C5: in streaming mode, once a critical tick is processed at a replay index
exceeding 80% of the series length (index > 800 of the fixed 1000-row series),
the loop terminates at that tick: it is the last processed point of the
replay. -/
theorem stream_early_stop (ps : List (ℕ × Tick)) (i : ℕ) (p : Tick)
    (hmem : (i, p) ∈ streamProcessed ps)
    (hcrit : is_critical p.fos = true)
    (hidx : series_rows * 8 / 10 < i) :
    (streamProcessed ps).getLast? = some (i, p) := by
  have h800 : 800 < i := by
    simpa [series_rows] using hidx
  induction ps with
  | nil => simp [streamProcessed] at hmem
  | cons q rest ih =>
    obtain ⟨j, r⟩ := q
    rw [streamProcessed] at hmem ⊢
    by_cases hb : (is_critical r.fos && decide (800 < j)) = true
    · rw [if_pos hb] at hmem ⊢
      simp only [List.mem_singleton] at hmem
      rw [hmem]
      rfl
    · rw [if_neg hb] at hmem ⊢
      rcases List.mem_cons.mp hmem with heq | hmem2
      · exfalso
        apply hb
        rw [Prod.mk.injEq] at heq
        obtain ⟨hj, hr⟩ := heq
        subst hj
        subst hr
        rw [Bool.and_eq_true]
        exact ⟨hcrit, decide_eq_true h800⟩
      · have htail := ih hmem2
        have hne : streamProcessed rest ≠ [] := by
          intro h0
          rw [h0] at htail
          simp at htail
        obtain ⟨x, xs, hx⟩ := List.exists_cons_of_ne_nil hne
        rw [hx] at htail ⊢
        rw [List.getLast?_cons_cons, htail]

/-- The length of `l[-k:]` is the smaller of `k` and the length of `l`. -/
lemma lastN_length {α : Type*} (k : ℕ) (l : List α) :
    (lastN k l).length = min l.length k := by
  simp [lastN]
  omega

/-- `l[-k:]` is all of `l` when `l` has at most `k` elements. -/
lemma lastN_of_le {α : Type*} {k : ℕ} {l : List α} (h : l.length ≤ k) :
    lastN k l = l := by
  simp [lastN, Nat.sub_eq_zero_of_le h]

/-- Appending one element to an already-trimmed list and trimming again gives
the same result as trimming the fully appended list: the FIFO window commutes
with the append-then-trim step. -/
lemma lastN_append_singleton {α : Type*} (k : ℕ) (l : List α) (a : α) :
    lastN k (lastN k l ++ [a]) = lastN k (l ++ [a]) := by
  rcases le_or_lt l.length k with h | h
  · rw [lastN_of_le h]
  · rcases Nat.eq_zero_or_pos k with hk | hk
    · subst hk
      simp [lastN]
    · unfold lastN
      rw [List.length_append, List.length_append, List.length_drop]
      simp only [List.length_cons, List.length_nil]
      have h1 : l.length - (l.length - k) + (0 + 1) - k = 1 := by omega
      have h2 : l.length + (0 + 1) - k = l.length - k + 1 := by omega
      rw [h1, h2]
      rw [List.drop_append_of_le_length
        (by rw [List.length_drop]; omega : 1 ≤ (l.drop (l.length - k)).length)]
      rw [List.drop_append_of_le_length (by omega : l.length - k + 1 ≤ l.length)]
      rw [List.drop_drop]

/-- One per-tick append on a buffer whose four keys are the 200-windows of
four equally long series produces the 200-windows of the extended series. -/
lemma bufferAppendTick_lastN (p : Tick) (Ts Ps Ds Fs : List ℚ)
    (hP : Ps.length = Ts.length) (hD : Ds.length = Ts.length)
    (hF : Fs.length = Ts.length) :
    bufferAppendTick p ⟨lastN 200 Ts, lastN 200 Ps, lastN 200 Ds, lastN 200 Fs⟩
      = ⟨lastN 200 (Ts ++ [p.time]), lastN 200 (Ps ++ [p.pressure]),
          lastN 200 (Ds ++ [p.displacement]), lastN 200 (Fs ++ [p.fos])⟩ := by
  have lT := lastN_length 200 Ts
  have lP := lastN_length 200 Ps
  have lD := lastN_length 200 Ds
  have lF := lastN_length 200 Fs
  have lFF := lastN_length 200 (lastN 200 Fs)
  simp only [bufferAppendTick, max_buffer]
  split_ifs with h1 h2 h3
  · -- cap exceeded at the time key, and again at the fos key
    dsimp only at h2 ⊢
    simp only [TelemetryBuffer.mk.injEq]
    have hFs : lastN 200 (lastN 200 Fs) = lastN 200 Fs :=
      lastN_of_le (by omega)
    refine ⟨lastN_append_singleton 200 Ts p.time,
      lastN_append_singleton 200 Ps p.pressure,
      lastN_append_singleton 200 Ds p.displacement, ?_⟩
    rw [hFs, lastN_append_singleton 200 Fs p.fos]
  · -- cap exceeded at the time key but not at the fos key: impossible,
    -- the four keys always hold equally many entries
    exfalso
    dsimp only at h1 h2
    rw [List.length_append, List.length_cons, List.length_nil] at h1
    rw [List.length_append, List.length_cons, List.length_nil] at h2
    omega
  · -- cap not exceeded at the time key but exceeded at the fos key: impossible
    exfalso
    dsimp only at h1 h3
    rw [List.length_append, List.length_cons, List.length_nil] at h1
    rw [List.length_append, List.length_cons, List.length_nil] at h3
    omega
  · -- cap exceeded nowhere: all four keys keep at most 200 entries
    dsimp only at h1 h3 ⊢
    rw [List.length_append, List.length_cons, List.length_nil] at h1
    rw [List.length_append, List.length_cons, List.length_nil] at h3
    simp only [TelemetryBuffer.mk.injEq]
    have eT : lastN 200 Ts = Ts := lastN_of_le (by omega)
    have eP : lastN 200 Ps = Ps := lastN_of_le (by omega)
    have eD : lastN 200 Ds = Ds := lastN_of_le (by omega)
    have eF : lastN 200 Fs = Fs := lastN_of_le (by omega)
    rw [eT, eP, eD, eF]
    refine ⟨(lastN_of_le (by rw [List.length_append]; simp; omega)).symm,
      (lastN_of_le (by rw [List.length_append]; simp; omega)).symm,
      (lastN_of_le (by rw [List.length_append]; simp; omega)).symm,
      (lastN_of_le (by rw [List.length_append]; simp; omega)).symm⟩

/-- After any sequence of per-tick appends starting from the empty buffer,
each key holds exactly the 200-window of its full appended series. -/
lemma bufferRun_eq_lastN (ps : List Tick) :
    bufferRun ps emptyBuffer
      = ⟨lastN 200 (ps.map Tick.time), lastN 200 (ps.map Tick.pressure),
          lastN 200 (ps.map Tick.displacement), lastN 200 (ps.map Tick.fos)⟩ := by
  induction ps using List.reverseRecOn with
  | nil => simp [bufferRun, emptyBuffer, lastN]
  | append_singleton ps p ih =>
    rw [bufferRun, List.foldl_append]
    simp only [List.foldl_cons, List.foldl_nil]
    rw [show List.foldl (fun b p => bufferAppendTick p b) emptyBuffer ps
        = bufferRun ps emptyBuffer from rfl, ih]
    rw [bufferAppendTick_lastN p _ _ _ _ (by simp) (by simp) (by simp)]
    simp

/-- C8: the rolling telemetry buffer is capped at the 200 most recent entries
per key in FIFO order: after any number of per-tick appends, each key holds
exactly `min(appends, 200)` entries, namely the most recent ones in their
original append order; and the LIVE STREAM loop body updates the buffer by
exactly this per-tick append. -/
theorem telemetry_buffer_cap (ps : List Tick) :
    bufferRun ps emptyBuffer
      = ⟨lastN 200 (ps.map Tick.time), lastN 200 (ps.map Tick.pressure),
          lastN 200 (ps.map Tick.displacement), lastN 200 (ps.map Tick.fos)⟩
    ∧ (bufferRun ps emptyBuffer).time.length = min ps.length 200
    ∧ (bufferRun ps emptyBuffer).pressure.length = min ps.length 200
    ∧ (bufferRun ps emptyBuffer).displacement.length = min ps.length 200
    ∧ (bufferRun ps emptyBuffer).fos.length = min ps.length 200
    ∧ ∀ (p : Tick) (s : StreamState),
        (streamTick p s).buffer = bufferAppendTick p s.buffer := by
  have h := bufferRun_eq_lastN ps
  refine ⟨h, ?_, ?_, ?_, ?_, ?_⟩
  · rw [h]; dsimp only; rw [lastN_length, List.length_map]
  · rw [h]; dsimp only; rw [lastN_length, List.length_map]
  · rw [h]; dsimp only; rw [lastN_length, List.length_map]
  · rw [h]; dsimp only; rw [lastN_length, List.length_map]
  · intro p s
    rw [streamTick]
    split <;> rfl

/-- Witness for C5: a replay whose single tick is critical at index 900 stops
there, with that tick as the last processed point. -/
theorem stream_early_stop_witness :
    (streamProcessed [(900, (⟨0, 0, 0, 1⟩ : Tick))]).getLast? = some (900, ⟨0, 0, 0, 1⟩) :=
  stream_early_stop [(900, ⟨0, 0, 0, 1⟩)] 900 ⟨0, 0, 0, 1⟩
    (by rw [streamProcessed]; exact List.mem_cons_self _ _)
    (by norm_num [is_critical]) (by norm_num [series_rows])

end LithosGuard
